import Mathlib

/-!
Shallow embedding of `src/tools/apply_patch.py`.

The program reads patch text from standard input, writes it to the fixed
path `/tmp/tiara_patch.patch`, runs `git apply --check` on that file, then
`git apply`, relaying captured output and exit codes on failure.

We model the process state as a record holding the filesystem (a map from
path to optional content), the accumulated standard output and standard
error of this process, and a trace of observable events (file writes and
external command invocations).  The behaviour of external commands is an
environment function from a command line to a completed-process result.
An exit of the process is modelled by returning the exit code.
-/

namespace ApplyPatch

/-- Result of a completed external process (`subprocess.run` with
`capture_output=True`): return code, captured stdout and stderr. -/
structure ProcResult where
  returncode : Int
  stdout : String
  stderr : String
deriving Repr, DecidableEq

/-- Observable events of the program: writing a file, and invoking an
external command. -/
inductive Event where
  | writeFile (path : String) (content : String)
  | execCmd (cmd : List String)
deriving Repr, DecidableEq

/-- Process state: filesystem, the standard output of this process and standard
error, and the trace of events so far. -/
structure PState where
  fs : String → Option String
  out : String
  err : String
  events : List Event

/-- Behaviour of the external world: maps a command line to the result of
running it. -/
def Env : Type := List String → ProcResult

/-- Whitespace test matching the CPython whitespace table used by
`str.strip` with no argument: codepoints 0x09 to 0x0d, 0x1c to 0x20,
0x85, 0xa0, 0x1680, 0x2000 to 0x200a, 0x2028, 0x2029, 0x202f, 0x205f
and 0x3000. -/
def pyIsSpace (c : Char) : Bool :=
  (0x09 ≤ c.toNat && c.toNat ≤ 0x0d) ||
  (0x1c ≤ c.toNat && c.toNat ≤ 0x20) ||
  c.toNat = 0x85 || c.toNat = 0xa0 || c.toNat = 0x1680 ||
  (0x2000 ≤ c.toNat && c.toNat ≤ 0x200a) ||
  c.toNat = 0x2028 || c.toNat = 0x2029 || c.toNat = 0x202f ||
  c.toNat = 0x205f || c.toNat = 0x3000

/-- Python `str.strip`: drop leading and trailing whitespace. -/
def pyStrip (s : String) : String :=
  String.mk (((s.toList.dropWhile pyIsSpace).reverse.dropWhile pyIsSpace).reverse)

/-- The fixed temporary file path `Path("/tmp/tiara_patch.patch")`. -/
def patch_path : String := "/tmp/tiara_patch.patch"

/-- The usage message printed on empty input. -/
def usageMsg : String := "No patch text on stdin. Paste diff and end with Ctrl-D."

/-- The dry-run command line: `["git", "apply", "--check", str(patch_path)]`. -/
def checkCmd : List String := ["git", "apply", "--check", patch_path]

/-- The apply command line: `["git", "apply", str(patch_path)]`. -/
def applyCmd : List String := ["git", "apply", patch_path]

/-- Embedding of the helper `run(cmd)`: invoke the command, and on a
non-zero return code write the captured stdout then stderr to the
error stream of this process and exit with that return code (`Except.error`);
otherwise return the completed process (`Except.ok`). -/
def run (env : Env) (cmd : List String) (s : PState) : PState × Except Int ProcResult :=
  if (env cmd).returncode ≠ 0 then
    ({ s with events := s.events ++ [Event.execCmd cmd],
              err := s.err ++ (env cmd).stdout ++ (env cmd).stderr },
     Except.error (env cmd).returncode)
  else
    ({ s with events := s.events ++ [Event.execCmd cmd] }, Except.ok (env cmd))

/-- Embedding of `main()`: read stdin, reject empty or whitespace-only
input with the usage message and exit code 1, otherwise write the text to
the fixed path, run the dry-run check, run the apply, and print the
confirmation.  Returns the final state and the process exit code. -/
def main (stdin : String) (env : Env) (s0 : PState) : PState × Int :=
  if pyStrip stdin = "" then
    ({ s0 with err := s0.err ++ usageMsg ++ "\n" }, 1)
  else
    match run env checkCmd
        { s0 with
          fs := fun q => if q = patch_path then some stdin else s0.fs q,
          events := s0.events ++ [Event.writeFile patch_path stdin] } with
    | (s2, Except.error code) => (s2, code)
    | (s2, Except.ok _) =>
      match run env applyCmd s2 with
      | (s3, Except.error code) => (s3, code)
      | (s3, Except.ok _) =>
        ({ s3 with out := s3.out ++ "Applied patch: " ++ patch_path ++ "\n" }, 0)

/-- An initial state with an empty filesystem and empty streams. -/
def initState : PState :=
  { fs := fun _ => none, out := "", err := "", events := [] }

/-- An environment in which every external command succeeds silently. -/
def okEnv : Env := fun _ => { returncode := 0, stdout := "", stderr := "" }

/-- An environment in which every external command fails with code 2. -/
def failEnv : Env := fun _ => { returncode := 2, stdout := "bad patch", stderr := "error: corrupt" }

/-- An environment in which the dry-run check succeeds but the apply step
fails with code 3. -/
def applyFailEnv : Env := fun c =>
  if c = applyCmd then { returncode := 3, stdout := "out3", stderr := "err3" }
  else { returncode := 0, stdout := "", stderr := "" }

/-- The filesystem after the write step. -/
def writtenFs (stdin : String) (s0 : PState) : String → Option String :=
  fun q => if q = patch_path then some stdin else s0.fs q

/-- Full characterization of `main`: branch on empty input, dry-run
failure, apply failure, and success. -/
theorem main_spec (stdin : String) (env : Env) (s0 : PState) :
    main stdin env s0 =
      if pyStrip stdin = "" then
        ({ s0 with err := s0.err ++ usageMsg ++ "\n" }, 1)
      else if (env checkCmd).returncode ≠ 0 then
        ({ s0 with fs := writtenFs stdin s0,
                   events := s0.events ++
                     [Event.writeFile patch_path stdin, Event.execCmd checkCmd],
                   err := s0.err ++ (env checkCmd).stdout ++ (env checkCmd).stderr },
         (env checkCmd).returncode)
      else if (env applyCmd).returncode ≠ 0 then
        ({ s0 with fs := writtenFs stdin s0,
                   events := s0.events ++
                     [Event.writeFile patch_path stdin, Event.execCmd checkCmd,
                      Event.execCmd applyCmd],
                   err := s0.err ++ (env applyCmd).stdout ++ (env applyCmd).stderr },
         (env applyCmd).returncode)
      else
        ({ s0 with fs := writtenFs stdin s0,
                   events := s0.events ++
                     [Event.writeFile patch_path stdin, Event.execCmd checkCmd,
                      Event.execCmd applyCmd],
                   out := s0.out ++ "Applied patch: " ++ patch_path ++ "\n" },
         0) := by
  unfold main run writtenFs
  by_cases h : pyStrip stdin = ""
  · simp [h]
  · by_cases hc : (env checkCmd).returncode ≠ 0
    · simp [h, hc]
    · by_cases ha : (env applyCmd).returncode ≠ 0 <;> simp [h, hc, ha]

/-- Claim C1: for every non-empty input text read from standard input, after
the program writes it to the fixed temporary file path, reading that file
back yields exactly the input text (the persisted copy is identical to the
input). -/
theorem c1_persisted_identical (stdin : String) (env : Env) (s0 : PState)
    (h : pyStrip stdin ≠ "") :
    (main stdin env s0).1.fs patch_path = some stdin := by
  rw [main_spec, if_neg h]
  split_ifs <;> rfl

/-- Witness for C1 at a concrete non-empty input. -/
theorem c1_witness :
    pyStrip "hello\n" ≠ "" ∧
    (main "hello\n" okEnv initState).1.fs patch_path = some "hello\n" :=
  ⟨by decide, c1_persisted_identical "hello\n" okEnv initState (by decide)⟩

/-- Claim C2: whenever the dry-run validation step completes with a non-zero
status, the process exits with exactly that status, the captured stdout and
stderr of the validation step are both written to the error stream of this
process, the trace ends after the dry-run invocation, and the apply step is
never invoked. -/
theorem c2_dryrun_failure (stdin : String) (env : Env) (s0 : PState)
    (h : pyStrip stdin ≠ "") (hc : (env checkCmd).returncode ≠ 0) :
    (main stdin env s0).2 = (env checkCmd).returncode ∧
    (main stdin env s0).1.err =
      s0.err ++ (env checkCmd).stdout ++ (env checkCmd).stderr ∧
    (main stdin env s0).1.events =
      s0.events ++ [Event.writeFile patch_path stdin, Event.execCmd checkCmd] ∧
    Event.execCmd applyCmd ∉
      ((main stdin env s0).1.events.drop s0.events.length) := by
  rw [main_spec, if_neg h, if_pos hc]
  refine ⟨rfl, rfl, rfl, ?_⟩
  simp [List.drop_left, applyCmd, checkCmd]

/-- Witness for C2 with an environment whose dry-run check fails with
code 2. -/
theorem c2_witness :
    (main "p" failEnv initState).2 = (failEnv checkCmd).returncode ∧
    (main "p" failEnv initState).1.err =
      initState.err ++ (failEnv checkCmd).stdout ++ (failEnv checkCmd).stderr ∧
    (main "p" failEnv initState).1.events =
      initState.events ++ [Event.writeFile patch_path "p", Event.execCmd checkCmd] ∧
    Event.execCmd applyCmd ∉
      ((main "p" failEnv initState).1.events.drop initState.events.length) :=
  c2_dryrun_failure "p" failEnv initState (by decide) (by decide)

/-- Claim C3: on empty or whitespace-only input the process writes the usage
message to the error stream, exits with status 1, and appends no event at
all, so no file is written and no external operation is invoked. -/
theorem c3_empty_input_usage (stdin : String) (env : Env) (s0 : PState)
    (h : pyStrip stdin = "") :
    (main stdin env s0).2 = 1 ∧
    (main stdin env s0).1.err = s0.err ++ usageMsg ++ "\n" ∧
    (main stdin env s0).1.events = s0.events := by
  rw [main_spec, if_pos h]
  exact ⟨rfl, rfl, rfl⟩

/-- Witness for C3 at a whitespace-only input. -/
theorem c3_witness :
    (main " \n\t\x1c  " okEnv initState).2 = 1 ∧
    (main " \n\t\x1c  " okEnv initState).1.err = initState.err ++ usageMsg ++ "\n" ∧
    (main " \n\t\x1c  " okEnv initState).1.events = initState.events :=
  c3_empty_input_usage " \n\t\x1c  " okEnv initState (by decide)

/-- Claim C4: when both the dry-run validation step and the apply step
return status zero, the process prints the confirmation message containing
the fixed temporary path to standard output and exits with status 0. -/
theorem c4_success_confirmation (stdin : String) (env : Env) (s0 : PState)
    (h : pyStrip stdin ≠ "") (hc : (env checkCmd).returncode = 0)
    (ha : (env applyCmd).returncode = 0) :
    (main stdin env s0).2 = 0 ∧
    (main stdin env s0).1.out = s0.out ++ "Applied patch: " ++ patch_path ++ "\n" := by
  rw [main_spec, if_neg h, if_neg (fun hne => hne hc), if_neg (fun hne => hne ha)]
  exact ⟨rfl, rfl⟩

/-- Witness for C4 with an environment in which both steps succeed. -/
theorem c4_witness :
    (main "p4" okEnv initState).2 = 0 ∧
    (main "p4" okEnv initState).1.out =
      initState.out ++ "Applied patch: " ++ patch_path ++ "\n" :=
  c4_success_confirmation "p4" okEnv initState (by decide) (by decide) (by decide)

/-- Claim C5: when the dry-run validation step succeeds but the apply step
returns a non-zero status, the captured stdout and stderr of the apply step
are relayed to the error stream and the process exits with the exit code of
the apply step, identically to the validation-failure behaviour. -/
theorem c5_apply_failure (stdin : String) (env : Env) (s0 : PState)
    (h : pyStrip stdin ≠ "") (hc : (env checkCmd).returncode = 0)
    (ha : (env applyCmd).returncode ≠ 0) :
    (main stdin env s0).2 = (env applyCmd).returncode ∧
    (main stdin env s0).1.err =
      s0.err ++ (env applyCmd).stdout ++ (env applyCmd).stderr := by
  rw [main_spec, if_neg h, if_neg (fun hne => hne hc), if_pos ha]
  exact ⟨rfl, rfl⟩

/-- Witness for C5 with an environment whose check succeeds and whose apply
fails with code 3. -/
theorem c5_witness :
    (main "p5" applyFailEnv initState).2 = (applyFailEnv applyCmd).returncode ∧
    (main "p5" applyFailEnv initState).1.err =
      initState.err ++ (applyFailEnv applyCmd).stdout ++ (applyFailEnv applyCmd).stderr :=
  c5_apply_failure "p5" applyFailEnv initState (by decide) (by decide) (by decide)

/-- Claim C6: every execution follows the strict order read input, write
file, dry-run validation, apply; the trace appended by the program is empty
on empty input, stops right after the dry-run invocation when the dry-run
fails, and otherwise is exactly write, check, apply, so a failing step
terminates the run and no later step occurs. -/
theorem c6_sequential_pipeline (stdin : String) (env : Env) (s0 : PState) :
    (main stdin env s0).1.events =
      s0.events ++
        (if pyStrip stdin = "" then []
         else if (env checkCmd).returncode ≠ 0 then
           [Event.writeFile patch_path stdin, Event.execCmd checkCmd]
         else
           [Event.writeFile patch_path stdin, Event.execCmd checkCmd,
            Event.execCmd applyCmd]) := by
  rw [main_spec]
  split_ifs <;> simp

/-- Claim C7: the program never deletes the temporary file: for every
non-empty input and every outcome of the external steps, the final
filesystem holds the input text at the fixed path and is unchanged
everywhere else. -/
theorem c7_temp_file_remains (stdin : String) (env : Env) (s0 : PState)
    (h : pyStrip stdin ≠ "") (p : String) :
    (main stdin env s0).1.fs p =
      if p = patch_path then some stdin else s0.fs p := by
  rw [main_spec, if_neg h]
  by_cases hc : (env checkCmd).returncode ≠ 0
  · rw [if_pos hc]; rfl
  · rw [if_neg hc]
    by_cases ha : (env applyCmd).returncode ≠ 0
    · rw [if_pos ha]; rfl
    · rw [if_neg ha]; rfl

/-- Witness for C7 under a failing environment: the fixed path still holds
the input and an unrelated path is untouched. -/
theorem c7_witness :
    (main "p7" failEnv initState).1.fs patch_path =
      (if patch_path = patch_path then some "p7" else initState.fs patch_path) ∧
    (main "p7" failEnv initState).1.fs "/tmp/other" =
      (if "/tmp/other" = patch_path then some "p7" else initState.fs "/tmp/other") :=
  ⟨c7_temp_file_remains "p7" failEnv initState (by decide) patch_path,
   c7_temp_file_remains "p7" failEnv initState (by decide) "/tmp/other"⟩

/-- Claim C8: on empty or whitespace-only input the program exits before
the file-write step, so the filesystem is completely unchanged and no event
is recorded. -/
theorem c8_empty_input_no_write (stdin : String) (env : Env) (s0 : PState)
    (h : pyStrip stdin = "") :
    (main stdin env s0).1.fs = s0.fs ∧ (main stdin env s0).1.events = s0.events := by
  rw [main_spec, if_pos h]
  exact ⟨rfl, rfl⟩

/-- Witness for C8 at the empty input. -/
theorem c8_witness :
    (main "\x1c " okEnv initState).1.fs = initState.fs ∧
    (main "\x1c " okEnv initState).1.events = initState.events :=
  c8_empty_input_no_write "\x1c " okEnv initState (by decide)

/-- Every event the program can emit names the fixed path: a write is to
`patch_path` and an invocation is one of the two git command lines, both of
which end with `patch_path`. -/
def usesFixedPath : Event → Bool
  | Event.writeFile p _ => p == patch_path
  | Event.execCmd c => c == checkCmd || c == applyCmd

/-- Claim C9: the temporary file path is the constant
`/tmp/tiara_patch.patch` for every input, every environment and every
initial state; the same path appears in both git command lines, and every
event the program appends uses only that fixed path. -/
theorem c9_fixed_path_constant (stdin : String) (env : Env) (s0 : PState) :
    patch_path = "/tmp/tiara_patch.patch" ∧
    checkCmd = ["git", "apply", "--check", "/tmp/tiara_patch.patch"] ∧
    applyCmd = ["git", "apply", "/tmp/tiara_patch.patch"] ∧
    ((main stdin env s0).1.events.drop s0.events.length).all usesFixedPath = true := by
  refine ⟨rfl, rfl, rfl, ?_⟩
  rw [main_spec]
  split_ifs <;> simp [List.drop_left, usesFixedPath]

/-- Claim C10: for every non-empty input the text written to the temporary
file is the full untrimmed input; stripping is used only for the emptiness
test and never applied to the persisted content. -/
theorem c10_untrimmed_content (stdin : String) (env : Env) (s0 : PState)
    (h : pyStrip stdin ≠ "") :
    ((main stdin env s0).1.events.drop s0.events.length).head? =
      some (Event.writeFile patch_path stdin) := by
  rw [main_spec, if_neg h]
  split_ifs <;> simp [List.drop_left]

/-- Witness for C10 at an input with leading and trailing whitespace: the
stripped text differs from the input, yet the write event carries the full
untrimmed input. -/
theorem c10_witness :
    pyStrip "  hello \n" ≠ "" ∧
    pyStrip "  hello \n" ≠ "  hello \n" ∧
    ((main "  hello \n" okEnv initState).1.events.drop initState.events.length).head? =
      some (Event.writeFile patch_path "  hello \n") :=
  ⟨by decide, by decide,
   c10_untrimmed_content "  hello \n" okEnv initState (by decide)⟩

end ApplyPatch
